import Mathlib

/-!
Verification of the station-map program (`station_map.py`).

The program queries station metadata, collapses element stations into array
centroids (`group_arrays`), computes a padded bounding region
(`compute_region_from_points`), loads topography through a resolution
fallback chain (`load_topography`), and renders a map (`main`).

The embedding below mirrors the Python source: coordinates are modelled as
exact rationals, Python dicts as association lists in insertion order,
raised exceptions as `Except` errors, and the external collaborators
(FDSN query, PyGMT rendering calls) as an environment record recording
whether each call succeeds.
-/

namespace StationMap

/-- Station metadata record, one entry of the dict returned by
`collect_stations_from_iris`: latitude, longitude and network code. -/
structure Info where
  lat : ℚ
  lon : ℚ
  network : String
deriving DecidableEq

/-- Array centroid record, one entry of the dict returned by `group_arrays`. -/
structure Centroid where
  lat : ℚ
  lon : ℚ
deriving DecidableEq

/-- Test `sta[2].isdigit()` on the character at Python index 2; `false` when
the code has fewer than three characters. -/
def thirdIsDigit (sta : String) : Bool :=
  match sta.data.get? 2 with
  | some c => c.isDigit
  | none => false

/-- Grouping condition of `group_arrays`:
`len(sta) >= 3 and sta.startswith("IS") and sta[2].isdigit()`. -/
def isArrayCode (sta : String) : Bool :=
  decide (3 ≤ sta.data.length) && decide (sta.data.take 2 = ['I', 'S']) && thirdIsDigit sta

/-- Array identifier assigned to a station code by `group_arrays`:
`sta[:3]` when the code matches the `IS##` pattern, otherwise the full code. -/
def classify (sta : String) : String :=
  if isArrayCode sta then String.mk (sta.data.take 3) else sta

/-- One step of the accumulation loop of `group_arrays`:
`groups.setdefault(array_id, ...)` followed by appending the latitude and
longitude to the group's lists.  A new key is appended at the end,
matching Python dict insertion order. -/
def addToGroups : List (String × (List ℚ × List ℚ)) → String → ℚ → ℚ →
    List (String × (List ℚ × List ℚ))
  | [], k, la, lo => [(k, ([la], [lo]))]
  | (k₀, (las, los)) :: rest, k, la, lo =>
    if k₀ = k then (k₀, (las ++ [la], los ++ [lo])) :: rest
    else (k₀, (las, los)) :: addToGroups rest k la lo

/-- The `groups` dict built by the first loop of `group_arrays`. -/
def buildGroups (infra_raw : List (String × Info)) : List (String × (List ℚ × List ℚ)) :=
  infra_raw.foldl (fun gs p => addToGroups gs (classify p.1) p.2.lat p.2.lon) []

/-- Arithmetic mean (`np.mean`) of a list of rationals. -/
def mean (xs : List ℚ) : ℚ := xs.sum / (xs.length : ℚ)

/-- Collapse element stations into array centroids, as `group_arrays` does:
group coordinates by `classify` of the station code, then take the
per-axis arithmetic mean of each group. -/
def group_arrays (infra_raw : List (String × Info)) : List (String × Centroid) :=
  (buildGroups infra_raw).map (fun p => (p.1, ⟨mean p.2.1, mean p.2.2⟩))

/-- Association-list lookup in a Python-dict model. -/
def alookup {α : Type} (k : String) : List (String × α) → Option α
  | [] => none
  | (k₀, v) :: rest => if k₀ = k then some v else alookup k rest

/-- Latitudes of the stations a given array identifier collects, in input
order. -/
def memberLats (l : List (String × Info)) (k : String) : List ℚ :=
  (l.filter (fun p => decide (classify p.1 = k))).map (fun p => p.2.lat)

/-- Longitudes of the stations a given array identifier collects, in input
order. -/
def memberLons (l : List (String × Info)) (k : String) : List ℚ :=
  (l.filter (fun p => decide (classify p.1 = k))).map (fun p => p.2.lon)

/-- Minimum of a list, `none` on the empty list (Python `min` raises there). -/
def listMin : List ℚ → Option ℚ
  | [] => none
  | x :: xs =>
    match listMin xs with
    | none => some x
    | some m => some (min x m)

/-- Maximum of a list, `none` on the empty list (Python `max` raises there). -/
def listMax : List ℚ → Option ℚ
  | [] => none
  | x :: xs =>
    match listMax xs with
    | none => some x
    | some m => some (max x m)

/-- Padded region `[lon_min - lon_pad, lon_max + lon_pad, lat_min - lat_pad,
lat_max + lat_pad]` computed by `compute_region_from_points`; `none` models
the `ValueError` that Python `min`/`max` raise on an empty sequence.  The
absolute pad floor `0.02` is the literal in the source; `pad_min` and
`pad_frac` are the parameters (both default `0.01`). -/
def compute_region_from_points (lats lons : List ℚ) (pad_min pad_frac : ℚ) :
    Option (ℚ × ℚ × ℚ × ℚ) :=
  match listMin lats, listMax lats, listMin lons, listMax lons with
  | some lat_min, some lat_max, some lon_min, some lon_max =>
    let dlat := max (lat_max - lat_min) pad_min
    let dlon := max (lon_max - lon_min) pad_min
    let lat_pad := max (dlat * pad_frac) (1/50 : ℚ)
    let lon_pad := max (dlon * pad_frac) (1/50 : ℚ)
    some (lon_min - lon_pad, lon_max + lon_pad, lat_min - lat_pad, lat_max + lat_pad)
  | _, _, _, _ => none

/-- Loop body of `load_topography`: try each resolution in order, remember
the last error; the final aggregate error carries the last underlying
failure (`none` only when the preference list was empty). -/
def load_topo_loop {ε γ : Type} (load : String → Except ε γ) :
    Option ε → List String → Except (Option ε) γ
  | last_err, [] => Except.error last_err
  | _, res :: rest =>
    match load res with
    | Except.ok g => Except.ok g
    | Except.error e => load_topo_loop load (some e) rest

/-- Try earth-relief resolutions in preference order and return the first
grid that loads; if every resolution fails, fail with an aggregate error
carrying the last underlying failure. -/
def load_topography {ε γ : Type} (load : String → Except ε γ) (prefs : List String) :
    Except (Option ε) γ :=
  load_topo_loop load none prefs

/-- Topography resolution preference list `TOPO_PREF = ("01s", "03s", "15s")`. -/
def TOPO_PREF : List String := ["01s", "03s", "15s"]

/-- Manual region override constant from the source configuration. -/
def MANUAL_REGION : Option (ℚ × ℚ × ℚ × ℚ) :=
  some (-116075/1000, -116033/1000, 3717/100, 3723/100)

/-- Distinct fatal error conditions of a run, mirroring the distinct
exception messages raised in the source. -/
inductive Err where
  | fdsn (msg : String)
  | noStations
  | emptyPoints
  | render (stage : String)
deriving DecidableEq

/-- Background layer actually drawn: raster topography or the plain
coastline fallback. -/
inductive Background where
  | topo (grid : Nat)
  | coast
deriving DecidableEq

/-- Observable outcome of a successful run: which background was drawn, how
many warnings were printed, the order in which array symbols were plotted,
and whether the figure was shown and saved. -/
structure RunOutput where
  background : Background
  warnings : Nat
  plotted : List String
  shown : Bool
  saved : Bool
deriving DecidableEq

/-- Environment of external collaborators: the raw FDSN query outcome, the
per-resolution earth-relief loader, and a success flag for each PyGMT call
and for the legend-file removal. -/
structure Env where
  queryRaw : Except String (List (String × Info))
  topoLoad : String → Except String Nat
  grdimageOk : Bool
  basemapFrameOk : Bool
  coastOk : Bool
  plotOk : Bool
  scaleOk : Bool
  legendWriteOk : Bool
  legendDrawOk : Bool
  removeOk : Bool
  showOk : Bool
  save : Bool
  savefigOk : Bool

/-- Query the metadata source; an upstream failure is wrapped in the
distinct `FDSN get_stations failed` error. -/
def collect_stations_from_iris (env : Env) : Except Err (List (String × Info)) :=
  match env.queryRaw with
  | Except.ok inv => Except.ok inv
  | Except.error e => Except.error (Err.fdsn e)

/-- Order in which `main` iterates array identifiers when plotting:
`sorted(infra.items())`, i.e. lexicographically sorted keys. -/
def renderOrder (infra : List (String × Centroid)) : List String :=
  List.insertionSort (fun a b => a ≤ b) (infra.map Prod.fst)

/-- Fallback branch of the topography `try` block: print a warning, draw a
frame basemap and the coastline.  A failure of either call is uncaught. -/
def fallbackStep (env : Env) : Except Err (Background × Nat) :=
  if env.basemapFrameOk then
    if env.coastOk then Except.ok (Background.coast, 1)
    else Except.error (Err.render "coast")
  else Except.error (Err.render "basemap")

/-- Topography block of `main`: load the grid and draw it with `grdimage`;
any exception in the block, from the loader or from `grdimage`, is caught
and answered by the coastline fallback. -/
def topoStep (env : Env) : Except Err (Background × Nat) :=
  match load_topography env.topoLoad TOPO_PREF with
  | Except.ok g =>
    if env.grdimageOk then Except.ok (Background.topo g, 0) else fallbackStep env
  | Except.error _ => fallbackStep env

/-- Remainder of the rendering pipeline after the background: plot symbols,
scale bar, legend file, legend, best-effort legend-file removal, show,
optional save.  Only the removal failure is swallowed. -/
def renderRest (env : Env) (bg : Background) (warns : Nat)
    (infra : List (String × Centroid)) : Except Err RunOutput :=
  if env.plotOk then
    if env.scaleOk then
      if env.legendWriteOk then
        if env.legendDrawOk then
          if env.showOk then
            if env.save then
              if env.savefigOk then Except.ok ⟨bg, warns, renderOrder infra, true, true⟩
              else Except.error (Err.render "savefig")
            else Except.ok ⟨bg, warns, renderOrder infra, true, false⟩
          else Except.error (Err.render "show")
        else Except.error (Err.render "legend")
      else Except.error (Err.render "legendfile")
    else Except.error (Err.render "scalebar")
  else Except.error (Err.render "plot")

/-- Full pipeline of `main`: query, empty-result check, aggregation, region
selection (manual override or auto-fit), topography block with coastline
fallback, and the rest of the rendering. -/
def main (env : Env) (manual_region : Option (ℚ × ℚ × ℚ × ℚ)) : Except Err RunOutput :=
  match collect_stations_from_iris env with
  | Except.error e => Except.error e
  | Except.ok infra_raw =>
    if infra_raw = [] then Except.error Err.noStations
    else
      let infra := group_arrays infra_raw
      let regionE : Except Err (ℚ × ℚ × ℚ × ℚ) :=
        match manual_region with
        | some r => Except.ok r
        | none =>
          match compute_region_from_points (infra.map (fun p => p.2.lat))
              (infra.map (fun p => p.2.lon)) (1/100) (1/100) with
          | some r => Except.ok r
          | none => Except.error Err.emptyPoints
      match regionE with
      | Except.error e => Except.error e
      | Except.ok _ =>
        match topoStep env with
        | Except.error e => Except.error e
        | Except.ok (bg, warns) => renderRest env bg warns infra

/-- Example query result used to instantiate theorems on concrete data:
three element stations forming array `IS3` (two members) and array `IS4`
(a singleton). -/
def sampleStations : List (String × Info) :=
  [("IS31", ⟨1, 2, "SN"⟩), ("IS32", ⟨3, 4, "SN"⟩), ("IS41", ⟨5, 6, "SN"⟩)]

/-- Environment in which every topography resolution fails to load and all
other external calls succeed. -/
def sampleEnvAllFail : Env :=
  ⟨Except.ok sampleStations, fun _ => Except.error "404",
   true, true, true, true, true, true, true, true, true, false, true⟩

/-- Environment in which topography loads at the first resolution but the
raster drawing call fails; all other external calls succeed. -/
def sampleEnvGrdimageFail : Env :=
  ⟨Except.ok sampleStations, fun _ => Except.ok 7,
   false, true, true, true, true, true, true, true, true, false, true⟩

/-- Environment whose metadata query succeeds but returns zero stations. -/
def sampleEnvEmpty : Env :=
  ⟨Except.ok [], fun _ => Except.error "404",
   true, true, true, true, true, true, true, true, true, false, true⟩

/-! Basic facts about `listMin` and `listMax`. -/

theorem listMin_ne_nil {l : List ℚ} (h : l ≠ []) : ∃ m, listMin l = some m := by
  cases l with
  | nil => exact absurd rfl h
  | cons x xs =>
    cases hx : listMin xs with
    | none => exact ⟨x, by simp [listMin, hx]⟩
    | some m => exact ⟨min x m, by simp [listMin, hx]⟩

theorem listMax_ne_nil {l : List ℚ} (h : l ≠ []) : ∃ m, listMax l = some m := by
  cases l with
  | nil => exact absurd rfl h
  | cons x xs =>
    cases hx : listMax xs with
    | none => exact ⟨x, by simp [listMax, hx]⟩
    | some m => exact ⟨max x m, by simp [listMax, hx]⟩

theorem listMin_le {l : List ℚ} {m : ℚ} (h : listMin l = some m) :
    ∀ x ∈ l, m ≤ x := by
  induction l generalizing m with
  | nil => simp [listMin] at h
  | cons y ys ih =>
    intro x hx
    cases hy : listMin ys with
    | none =>
      cases ys with
      | nil =>
        simp [listMin, hy] at h
        subst h
        simp at hx
        exact hx ▸ le_refl x
      | cons z zs =>
        exact absurd hy (by obtain ⟨m₀, hm₀⟩ := listMin_ne_nil (l := z :: zs) (by simp); simp [hm₀])
    | some m₀ =>
      simp [listMin, hy] at h
      subst h
      rcases List.mem_cons.mp hx with hx | hx
      · exact hx ▸ min_le_left _ _
      · exact le_trans (min_le_right _ _) (ih hy x hx)

theorem le_listMax {l : List ℚ} {m : ℚ} (h : listMax l = some m) :
    ∀ x ∈ l, x ≤ m := by
  induction l generalizing m with
  | nil => simp [listMax] at h
  | cons y ys ih =>
    intro x hx
    cases hy : listMax ys with
    | none =>
      cases ys with
      | nil =>
        simp [listMax, hy] at h
        subst h
        simp at hx
        exact hx ▸ le_refl x
      | cons z zs =>
        exact absurd hy (by obtain ⟨m₀, hm₀⟩ := listMax_ne_nil (l := z :: zs) (by simp); simp [hm₀])
    | some m₀ =>
      simp [listMax, hy] at h
      subst h
      rcases List.mem_cons.mp hx with hx | hx
      · exact hx ▸ le_max_left _ _
      · exact le_trans (ih hy x hx) (le_max_right _ _)

theorem listMin_mem {l : List ℚ} {m : ℚ} (h : listMin l = some m) : m ∈ l := by
  induction l generalizing m with
  | nil => simp [listMin] at h
  | cons y ys ih =>
    cases hy : listMin ys with
    | none =>
      simp [listMin, hy] at h
      simp [h]
    | some m₀ =>
      simp [listMin, hy] at h
      subst h
      rcases le_total y m₀ with hc | hc
      · simp [min_eq_left hc]
      · simp [min_eq_right hc, ih hy]

theorem listMax_mem {l : List ℚ} {m : ℚ} (h : listMax l = some m) : m ∈ l := by
  induction l generalizing m with
  | nil => simp [listMax] at h
  | cons y ys ih =>
    cases hy : listMax ys with
    | none =>
      simp [listMax, hy] at h
      simp [h]
    | some m₀ =>
      simp [listMax, hy] at h
      subst h
      rcases le_total y m₀ with hc | hc
      · simp [max_eq_right hc, ih hy]
      · simp [max_eq_left hc]

theorem listMin_cons_some {l : List ℚ} {m : ℚ} (x : ℚ) (h : listMin l = some m) :
    listMin (x :: l) = some (min x m) := by
  simp [listMin, h]

theorem listMax_cons_some {l : List ℚ} {m : ℚ} (x : ℚ) (h : listMax l = some m) :
    listMax (x :: l) = some (max x m) := by
  simp [listMax, h]

/-! Facts about `compute_region_from_points`. -/

theorem compute_region_eq (lats lons : List ℚ) (pad_min pad_frac a b c d : ℚ)
    (h1 : listMin lats = some a) (h2 : listMax lats = some b)
    (h3 : listMin lons = some c) (h4 : listMax lons = some d) :
    compute_region_from_points lats lons pad_min pad_frac =
      some (c - max (max (d - c) pad_min * pad_frac) (1/50),
            d + max (max (d - c) pad_min * pad_frac) (1/50),
            a - max (max (b - a) pad_min * pad_frac) (1/50),
            b + max (max (b - a) pad_min * pad_frac) (1/50)) := by
  unfold compute_region_from_points
  rw [h1, h2, h3, h4]

theorem compute_region_contains (lats lons : List ℚ) (pad_min pad_frac : ℚ)
    (h1 : lats ≠ []) (h2 : lons ≠ []) :
    ∃ r : ℚ × ℚ × ℚ × ℚ,
      compute_region_from_points lats lons pad_min pad_frac = some r ∧
      (∀ lo ∈ lons, r.1 < lo ∧ lo < r.2.1) ∧
      (∀ la ∈ lats, r.2.2.1 < la ∧ la < r.2.2.2) := by
  obtain ⟨a, ha⟩ := listMin_ne_nil h1
  obtain ⟨b, hb⟩ := listMax_ne_nil h1
  obtain ⟨c, hc⟩ := listMin_ne_nil h2
  obtain ⟨d, hd⟩ := listMax_ne_nil h2
  refine ⟨_, compute_region_eq lats lons pad_min pad_frac a b c d ha hb hc hd, ?_, ?_⟩
  · intro lo hlo
    have hpad : (0 : ℚ) < max (max (d - c) pad_min * pad_frac) (1/50) :=
      lt_of_lt_of_le (by norm_num) (le_max_right _ _)
    exact ⟨by linarith [listMin_le hc lo hlo], by linarith [le_listMax hd lo hlo]⟩
  · intro la hla
    have hpad : (0 : ℚ) < max (max (b - a) pad_min * pad_frac) (1/50) :=
      lt_of_lt_of_le (by norm_num) (le_max_right _ _)
    exact ⟨by linarith [listMin_le ha la hla], by linarith [le_listMax hb la hla]⟩

theorem compute_region_none (lats lons : List ℚ) (pad_min pad_frac : ℚ)
    (h : lats = [] ∨ lons = []) :
    compute_region_from_points lats lons pad_min pad_frac = none := by
  rcases h with h | h <;> subst h
  · cases h1 : listMin lons <;> cases h2 : listMax lons <;>
      simp [compute_region_from_points, listMin, listMax, h1, h2]
  · cases h1 : listMin lats <;> cases h2 : listMax lats <;>
      simp [compute_region_from_points, listMin, listMax, h1, h2]

/-! Facts about `addToGroups`, `buildGroups` and `group_arrays`. -/

theorem alookup_addToGroups_self (gs : List (String × (List ℚ × List ℚ))) (k : String)
    (la lo : ℚ) :
    alookup k (addToGroups gs k la lo) =
      some (match alookup k gs with
            | none => ([la], [lo])
            | some (las, los) => (las ++ [la], los ++ [lo])) := by
  induction gs with
  | nil => simp [addToGroups, alookup]
  | cons p rest ih =>
    obtain ⟨k₀, las, los⟩ := p
    by_cases hk : k₀ = k
    · subst hk
      simp [addToGroups, alookup]
    · simp [addToGroups, alookup, hk, ih]

theorem alookup_addToGroups_other (gs : List (String × (List ℚ × List ℚ)))
    (k j : String) (la lo : ℚ) (hjk : j ≠ k) :
    alookup j (addToGroups gs k la lo) = alookup j gs := by
  induction gs with
  | nil => simp [addToGroups, alookup, Ne.symm hjk]
  | cons p rest ih =>
    obtain ⟨k₀, las, los⟩ := p
    by_cases hk : k₀ = k
    · subst hk
      simp [addToGroups, alookup, hjk, Ne.symm hjk]
    · by_cases hj : k₀ = j <;>
        simp [addToGroups, alookup, hk, hj, hjk, Ne.symm hjk, ih]

theorem memberLats_cons_hit (p : String × Info) (rest : List (String × Info)) (k : String)
    (h : classify p.1 = k) :
    memberLats (p :: rest) k = p.2.lat :: memberLats rest k := by
  simp [memberLats, h]

theorem memberLats_cons_miss (p : String × Info) (rest : List (String × Info)) (k : String)
    (h : classify p.1 ≠ k) :
    memberLats (p :: rest) k = memberLats rest k := by
  simp [memberLats, h]

theorem memberLons_cons_hit (p : String × Info) (rest : List (String × Info)) (k : String)
    (h : classify p.1 = k) :
    memberLons (p :: rest) k = p.2.lon :: memberLons rest k := by
  simp [memberLons, h]

theorem memberLons_cons_miss (p : String × Info) (rest : List (String × Info)) (k : String)
    (h : classify p.1 ≠ k) :
    memberLons (p :: rest) k = memberLons rest k := by
  simp [memberLons, h]

theorem alookup_buildGroups_loop (l : List (String × Info))
    (gs : List (String × (List ℚ × List ℚ))) (k : String) :
    alookup k (l.foldl (fun gs p => addToGroups gs (classify p.1) p.2.lat p.2.lon) gs) =
      match alookup k gs with
      | some (las, los) => some (las ++ memberLats l k, los ++ memberLons l k)
      | none =>
        if memberLats l k = [] then none
        else some (memberLats l k, memberLons l k) := by
  induction l generalizing gs with
  | nil =>
    cases h : alookup k gs with
    | none => simp [memberLats, memberLons, h]
    | some v => obtain ⟨las, los⟩ := v; simp [memberLats, memberLons, h]
  | cons p rest ih =>
    rw [List.foldl_cons, ih]
    by_cases hc : classify p.1 = k
    · rw [hc, alookup_addToGroups_self,
        memberLats_cons_hit p rest k hc, memberLons_cons_hit p rest k hc]
      cases h : alookup k gs with
      | none => simp
      | some v => obtain ⟨las, los⟩ := v; simp
    · rw [alookup_addToGroups_other gs (classify p.1) k p.2.lat p.2.lon (Ne.symm hc),
        memberLats_cons_miss p rest k hc, memberLons_cons_miss p rest k hc]

theorem alookup_buildGroups (l : List (String × Info)) (k : String) :
    alookup k (buildGroups l) =
      if memberLats l k = [] then none
      else some (memberLats l k, memberLons l k) := by
  have h := alookup_buildGroups_loop l [] k
  simpa [alookup] using h

theorem alookup_map_value {α β : Type} (f : α → β) (k : String) (gs : List (String × α)) :
    alookup k (gs.map (fun p => (p.1, f p.2))) = (alookup k gs).map f := by
  induction gs with
  | nil => rfl
  | cons p rest ih =>
    obtain ⟨k₀, v⟩ := p
    by_cases hk : k₀ = k <;> simp [alookup, hk, ih]

theorem alookup_group_arrays (l : List (String × Info)) (k : String) :
    alookup k (group_arrays l) =
      if memberLats l k = [] then none
      else some ⟨mean (memberLats l k), mean (memberLons l k)⟩ := by
  have h := alookup_map_value (fun v : List ℚ × List ℚ => Centroid.mk (mean v.1) (mean v.2))
    k (buildGroups l)
  rw [group_arrays]
  rw [show ((buildGroups l).map fun p => (p.1, Centroid.mk (mean p.2.1) (mean p.2.2))) =
      ((buildGroups l).map fun p =>
        (p.1, (fun v : List ℚ × List ℚ => Centroid.mk (mean v.1) (mean v.2)) p.2)) from rfl]
  rw [h, alookup_buildGroups]
  by_cases hm : memberLats l k = [] <;> simp [hm]

theorem alookup_eq_none_iff {α : Type} (k : String) (gs : List (String × α)) :
    alookup k gs = none ↔ k ∉ gs.map Prod.fst := by
  induction gs with
  | nil => simp [alookup]
  | cons p rest ih =>
    obtain ⟨k₀, v⟩ := p
    by_cases hk : k₀ = k
    · subst hk
      simp [alookup]
    · simp [alookup, hk, Ne.symm hk, ih]

theorem mem_keys_group_arrays (l : List (String × Info)) (k : String) :
    k ∈ (group_arrays l).map Prod.fst ↔ memberLats l k ≠ [] := by
  rw [← not_iff_not, not_not, ← alookup_eq_none_iff, alookup_group_arrays]
  by_cases hm : memberLats l k = [] <;> simp [hm]

/-! Facts about `mean`. -/

theorem mean_singleton (x : ℚ) : mean [x] = x := by
  simp [mean]

theorem listMin_le_mean {xs : List ℚ} {m : ℚ} (h : listMin xs = some m) : m ≤ mean xs := by
  have hne : xs ≠ [] := by
    intro hx
    subst hx
    simp [listMin] at h
  have hlen : (0 : ℚ) < (xs.length : ℚ) := by
    exact_mod_cast List.length_pos.mpr hne
  have hsum : (xs.length : ℚ) * m ≤ xs.sum := by
    have := List.card_nsmul_le_sum xs m (listMin_le h)
    simpa [nsmul_eq_mul] using this
  rw [mean, le_div_iff₀ hlen]
  linarith

theorem mean_le_listMax {xs : List ℚ} {m : ℚ} (h : listMax xs = some m) : mean xs ≤ m := by
  have hne : xs ≠ [] := by
    intro hx
    subst hx
    simp [listMax] at h
  have hlen : (0 : ℚ) < (xs.length : ℚ) := by
    exact_mod_cast List.length_pos.mpr hne
  have hsum : xs.sum ≤ (xs.length : ℚ) * m := by
    have := List.sum_le_card_nsmul xs m (le_listMax h)
    simpa [nsmul_eq_mul] using this
  rw [mean, div_le_iff₀ hlen]
  linarith

theorem keys_addToGroups (gs : List (String × (List ℚ × List ℚ))) (k : String) (la lo : ℚ) :
    (addToGroups gs k la lo).map Prod.fst =
      if alookup k gs = none then gs.map Prod.fst ++ [k] else gs.map Prod.fst := by
  induction gs with
  | nil => simp [addToGroups, alookup]
  | cons p rest ih =>
    obtain ⟨k₀, las, los⟩ := p
    by_cases hk : k₀ = k
    · subst hk
      simp [addToGroups, alookup]
    · by_cases h0 : alookup k rest = none <;>
        simp [addToGroups, alookup, hk, ih, h0]

theorem nodup_keys_foldl (l : List (String × Info)) (gs : List (String × (List ℚ × List ℚ)))
    (h : (gs.map Prod.fst).Nodup) :
    ((l.foldl (fun gs p => addToGroups gs (classify p.1) p.2.lat p.2.lon) gs).map
      Prod.fst).Nodup := by
  induction l generalizing gs with
  | nil => exact h
  | cons p rest ih =>
    rw [List.foldl_cons]
    apply ih
    rw [keys_addToGroups]
    by_cases h0 : alookup (classify p.1) gs = none
    · have hnotin := (alookup_eq_none_iff _ _).mp h0
      simp only [h0, if_pos]
      exact h.append (List.nodup_singleton _) (List.disjoint_singleton.mpr hnotin)
    · simp [h0, h]

theorem nodup_keys_group_arrays (l : List (String × Info)) :
    ((group_arrays l).map Prod.fst).Nodup := by
  have h := nodup_keys_foldl l [] (by simp)
  rw [group_arrays, List.map_map]
  simpa [buildGroups, Function.comp] using h

theorem addToGroups_ne_nil (gs : List (String × (List ℚ × List ℚ))) (k : String)
    (la lo : ℚ) : addToGroups gs k la lo ≠ [] := by
  cases gs with
  | nil => simp [addToGroups]
  | cons p rest =>
    obtain ⟨k₀, las, los⟩ := p
    by_cases hk : k₀ = k <;> simp [addToGroups, hk]

theorem foldl_addToGroups_ne_nil (l : List (String × Info))
    (gs : List (String × (List ℚ × List ℚ))) (h : gs ≠ []) :
    l.foldl (fun gs p => addToGroups gs (classify p.1) p.2.lat p.2.lon) gs ≠ [] := by
  induction l generalizing gs with
  | nil => exact h
  | cons p rest ih => exact ih _ (addToGroups_ne_nil _ _ _ _)

theorem group_arrays_ne_nil {l : List (String × Info)} (h : l ≠ []) :
    group_arrays l ≠ [] := by
  cases l with
  | nil => exact absurd rfl h
  | cons p rest =>
    rw [group_arrays]
    intro hmap
    have hbg : buildGroups (p :: rest) = [] := by
      have := congrArg List.length hmap
      simpa using this
    rw [buildGroups, List.foldl_cons] at hbg
    exact foldl_addToGroups_ne_nil rest _ (addToGroups_ne_nil _ _ _ _) hbg

/-! Permutation invariance of the aggregation. -/

theorem memberLats_perm {l₁ l₂ : List (String × Info)} (h : l₁.Perm l₂) (k : String) :
    (memberLats l₁ k).Perm (memberLats l₂ k) :=
  List.Perm.map _ (List.Perm.filter _ h)

theorem memberLons_perm {l₁ l₂ : List (String × Info)} (h : l₁.Perm l₂) (k : String) :
    (memberLons l₁ k).Perm (memberLons l₂ k) :=
  List.Perm.map _ (List.Perm.filter _ h)

theorem mean_perm {xs ys : List ℚ} (h : xs.Perm ys) : mean xs = mean ys := by
  rw [mean, mean, h.sum_eq, h.length_eq]

theorem alookup_group_arrays_perm {l₁ l₂ : List (String × Info)} (h : l₁.Perm l₂)
    (k : String) : alookup k (group_arrays l₁) = alookup k (group_arrays l₂) := by
  rw [alookup_group_arrays, alookup_group_arrays]
  have hlat := memberLats_perm h k
  have hlon := memberLons_perm h k
  by_cases hm : memberLats l₁ k = []
  · have hm₂ : memberLats l₂ k = [] := (hm ▸ hlat).symm.eq_nil
    simp [hm, hm₂]
  · have hm₂ : memberLats l₂ k ≠ [] := fun hnil => hm (hnil ▸ hlat).eq_nil
    simp [hm, hm₂, mean_perm hlat, mean_perm hlon]

theorem keys_group_arrays_perm {l₁ l₂ : List (String × Info)} (h : l₁.Perm l₂) :
    ((group_arrays l₁).map Prod.fst).Perm ((group_arrays l₂).map Prod.fst) := by
  rw [List.perm_ext_iff_of_nodup (nodup_keys_group_arrays l₁) (nodup_keys_group_arrays l₂)]
  intro k
  rw [mem_keys_group_arrays, mem_keys_group_arrays]
  have hlat := memberLats_perm h k
  constructor
  · exact fun hne hnil => hne (hnil ▸ hlat).eq_nil
  · exact fun hne hnil => hne (hnil ▸ hlat).symm.eq_nil

theorem sorted_renderOrder (infra : List (String × Centroid)) :
    List.Sorted (fun a b : String => a ≤ b) (renderOrder infra) :=
  List.sorted_insertionSort _ _

theorem renderOrder_eq_of_perm {l₁ l₂ : List (String × Centroid)}
    (hperm : (l₁.map Prod.fst).Perm (l₂.map Prod.fst)) :
    renderOrder l₁ = renderOrder l₂ :=
  List.eq_of_perm_of_sorted
    (((List.perm_insertionSort _ _).trans hperm).trans
      (List.perm_insertionSort _ _).symm)
    (List.sorted_insertionSort _ _) (List.sorted_insertionSort _ _)

/-! Facts about the topography fallback chain. -/

theorem load_topo_loop_first_ok {ε γ : Type} (load : String → Except ε γ)
    (l₁ l₂ : List String) (r : String) (g : γ) (e₀ : Option ε)
    (hfail : ∀ x ∈ l₁, ∃ e, load x = Except.error e) (hok : load r = Except.ok g) :
    load_topo_loop load e₀ (l₁ ++ r :: l₂) = Except.ok g := by
  induction l₁ generalizing e₀ with
  | nil => simp [load_topo_loop, hok]
  | cons y ys ih =>
    obtain ⟨e, he⟩ := hfail y (List.mem_cons_self y ys)
    rw [List.cons_append]
    simp only [load_topo_loop, he]
    exact ih (some e) (fun x hx => hfail x (List.mem_cons_of_mem y hx))

theorem load_topo_loop_all_fail {ε γ : Type} (load : String → Except ε γ)
    (l : List String) (x : String) (e₀ : Option ε)
    (hfail : ∀ y ∈ l ++ [x], ∃ e, load y = Except.error e) :
    ∃ e, load x = Except.error e ∧
      load_topo_loop load e₀ (l ++ [x]) = Except.error (some e) := by
  induction l generalizing e₀ with
  | nil =>
    obtain ⟨e, he⟩ := hfail x (by simp)
    exact ⟨e, he, by simp [load_topo_loop, he]⟩
  | cons y ys ih =>
    obtain ⟨e, he⟩ := hfail y (by simp)
    obtain ⟨e₁, he₁, hr⟩ := ih (some e)
      (fun z hz => hfail z (by rw [List.cons_append]; exact List.mem_cons_of_mem y hz))
    refine ⟨e₁, he₁, ?_⟩
    rw [List.cons_append]
    simp only [load_topo_loop, he]
    exact hr

theorem load_topography_first_ok {ε γ : Type} (load : String → Except ε γ)
    (l₁ l₂ : List String) (r : String) (g : γ)
    (hfail : ∀ x ∈ l₁, ∃ e, load x = Except.error e) (hok : load r = Except.ok g) :
    load_topography load (l₁ ++ r :: l₂) = Except.ok g :=
  load_topo_loop_first_ok load l₁ l₂ r g none hfail hok

theorem load_topography_all_fail {ε γ : Type} (load : String → Except ε γ)
    (l : List String) (x : String)
    (hfail : ∀ y ∈ l ++ [x], ∃ e, load y = Except.error e) :
    ∃ e, load x = Except.error e ∧
      load_topography load (l ++ [x]) = Except.error (some e) :=
  load_topo_loop_all_fail load l x none hfail

/-! Facts about the pipeline of `main`. -/

theorem renderRest_ok (env : Env) (bg : Background) (warns : Nat)
    (infra : List (String × Centroid))
    (hp : env.plotOk = true) (hs : env.scaleOk = true) (hlw : env.legendWriteOk = true)
    (hld : env.legendDrawOk = true) (hsh : env.showOk = true)
    (hsv : env.save = true → env.savefigOk = true) :
    renderRest env bg warns infra =
      Except.ok ⟨bg, warns, renderOrder infra, true, env.save⟩ := by
  cases hsave : env.save with
  | false => simp [renderRest, hp, hs, hlw, hld, hsh, hsave]
  | true => simp [renderRest, hp, hs, hlw, hld, hsh, hsave, hsv hsave]

theorem renderRest_ok_flags {env : Env} {bg : Background} {warns : Nat}
    {infra : List (String × Centroid)} {out : RunOutput}
    (h : renderRest env bg warns infra = Except.ok out) :
    env.plotOk = true ∧ env.scaleOk = true ∧ env.legendWriteOk = true ∧
    env.legendDrawOk = true ∧ env.showOk = true ∧
    (env.save = true → env.savefigOk = true) ∧
    out = ⟨bg, warns, renderOrder infra, true, env.save⟩ := by
  cases hp : env.plotOk <;> cases hs : env.scaleOk <;> cases hlw : env.legendWriteOk <;>
    cases hld : env.legendDrawOk <;> cases hsh : env.showOk <;> cases hsave : env.save <;>
    cases hsv : env.savefigOk <;>
    simp [renderRest, hp, hs, hlw, hld, hsh, hsave, hsv] at h <;>
    simp_all

theorem topoStep_all_fail (env : Env)
    (hfail : ∀ r ∈ TOPO_PREF, ∃ e, env.topoLoad r = Except.error e)
    (hb : env.basemapFrameOk = true) (hc : env.coastOk = true) :
    topoStep env = Except.ok (Background.coast, 1) := by
  obtain ⟨e, _, hload⟩ := load_topography_all_fail env.topoLoad ["01s", "03s"] "15s"
    (by simpa [TOPO_PREF] using hfail)
  rw [show (["01s", "03s"] ++ ["15s"] : List String) = TOPO_PREF from rfl] at hload
  rw [topoStep, hload]
  simp [fallbackStep, hb, hc]

theorem topoStep_grdimage_fail (env : Env) (g : Nat)
    (hload : load_topography env.topoLoad TOPO_PREF = Except.ok g)
    (hg : env.grdimageOk = false)
    (hb : env.basemapFrameOk = true) (hc : env.coastOk = true) :
    topoStep env = Except.ok (Background.coast, 1) := by
  rw [topoStep, hload]
  simp [hg, fallbackStep, hb, hc]

theorem auto_region_some (l : List (String × Info)) (hl : l ≠ []) :
    ∃ r, compute_region_from_points ((group_arrays l).map (fun p => p.2.lat))
        ((group_arrays l).map (fun p => p.2.lon)) (1/100) (1/100) = some r := by
  have hg := group_arrays_ne_nil hl
  have h1 : (group_arrays l).map (fun p => p.2.lat) ≠ [] := by
    intro hx
    apply hg
    have := congrArg List.length hx
    simpa using this
  have h2 : (group_arrays l).map (fun p => p.2.lon) ≠ [] := by
    intro hx
    apply hg
    have := congrArg List.length hx
    simpa using this
  obtain ⟨r, hr, -, -⟩ := compute_region_contains _ _ (1/100) (1/100) h1 h2
  exact ⟨r, hr⟩

theorem main_eq_renderRest {env : Env} {mr : Option (ℚ × ℚ × ℚ × ℚ)}
    {l : List (String × Info)} {bg : Background} {warns : Nat}
    (hq : env.queryRaw = Except.ok l) (hl : l ≠ [])
    (ht : topoStep env = Except.ok (bg, warns)) :
    main env mr = renderRest env bg warns (group_arrays l) := by
  have hcs : collect_stations_from_iris env = Except.ok l := by
    simp [collect_stations_from_iris, hq]
  cases mr with
  | some r => simp [main, hcs, hl, ht]
  | none =>
    obtain ⟨r, hr⟩ := auto_region_some l hl
    simp only [one_div] at hr
    simp [main, hcs, hl, ht, hr]

theorem main_coast_ok {env : Env} {mr : Option (ℚ × ℚ × ℚ × ℚ)} {l : List (String × Info)}
    (hq : env.queryRaw = Except.ok l) (hl : l ≠ [])
    (ht : topoStep env = Except.ok (Background.coast, 1))
    (hp : env.plotOk = true) (hs : env.scaleOk = true) (hlw : env.legendWriteOk = true)
    (hld : env.legendDrawOk = true) (hsh : env.showOk = true)
    (hsv : env.save = true → env.savefigOk = true) :
    main env mr =
      Except.ok ⟨Background.coast, 1, renderOrder (group_arrays l), true, env.save⟩ := by
  rw [main_eq_renderRest hq hl ht]
  exact renderRest_ok env _ _ _ hp hs hlw hld hsh hsv

theorem main_ok_flags {env : Env} {mr : Option (ℚ × ℚ × ℚ × ℚ)} {out : RunOutput}
    (h : main env mr = Except.ok out) :
    env.plotOk = true ∧ env.scaleOk = true ∧ env.legendWriteOk = true ∧
    env.legendDrawOk = true ∧ env.showOk = true ∧
    (env.save = true → env.savefigOk = true) ∧ out.shown = true ∧ out.saved = env.save := by
  simp only [main] at h
  repeat' split at h
  all_goals
    first
      | exact Except.noConfusion h
      | (obtain ⟨hp, hs, hlw, hld, hsh, hsv, hout⟩ := renderRest_ok_flags h
         exact ⟨hp, hs, hlw, hld, hsh, hsv, by rw [hout], by rw [hout]⟩)

theorem main_no_stations {env : Env} {mr : Option (ℚ × ℚ × ℚ × ℚ)}
    (hq : env.queryRaw = Except.ok []) :
    main env mr = Except.error Err.noStations := by
  have hcs : collect_stations_from_iris env = Except.ok [] := by
    simp [collect_stations_from_iris, hq]
  simp [main, hcs]

theorem main_query_fail {env : Env} {mr : Option (ℚ × ℚ × ℚ × ℚ)} {e : String}
    (hq : env.queryRaw = Except.error e) :
    main env mr = Except.error (Err.fdsn e) := by
  have hcs : collect_stations_from_iris env = Except.error (Err.fdsn e) := by
    simp [collect_stations_from_iris, hq]
  simp [main, hcs]

/-! Claim theorems. -/

/-- C1, counterexample: the claim's biconditional fails on the station code
`"ABC"`.  `group_arrays` assigns `"ABC"` the array identifier `"ABC"`,
which does equal its first three characters, although the code does not
begin with `"IS"` (so the grouping condition is violated) — the
"only if" direction of the claim is false. -/
theorem claim1_counterexample :
    (group_arrays [(("ABC" : String), (⟨0, 0, "SN"⟩ : Info))]).map Prod.fst = ["ABC"] ∧
    ("ABC" : String) = String.mk (("ABC" : String).data.take 3) ∧
    ¬(3 ≤ ("ABC" : String).data.length ∧ ("ABC" : String).data.take 2 = ['I', 'S'] ∧
      thirdIsDigit "ABC" = true) := by
  refine ⟨by decide, by decide, by decide⟩

/-- C1 (amended): for every station code in the input mapping,
`group_arrays` assigns it the array identifier equal to its first three
characters IF the code has length at least 3, starts with `"IS"` and has a
digit as third character; when any condition fails the assigned identifier
is the full station code (which coincides with the first three characters
whenever the code has length at most three).  The assigned identifier is a
key of the produced mapping. -/
theorem claim1_grouping_rule (l : List (String × Info)) (sta : String) (info : Info)
    (h : (sta, info) ∈ l) :
    ((3 ≤ sta.data.length ∧ sta.data.take 2 = ['I', 'S'] ∧ thirdIsDigit sta = true) →
      classify sta = String.mk (sta.data.take 3)) ∧
    (¬(3 ≤ sta.data.length ∧ sta.data.take 2 = ['I', 'S'] ∧ thirdIsDigit sta = true) →
      classify sta = sta) ∧
    classify sta ∈ (group_arrays l).map Prod.fst := by
  have hcond : isArrayCode sta = true ↔
      (3 ≤ sta.data.length ∧ sta.data.take 2 = ['I', 'S'] ∧ thirdIsDigit sta = true) := by
    simp [isArrayCode, and_assoc]
  refine ⟨?_, ?_, ?_⟩
  · intro hc
    simp [classify, hcond.mpr hc]
  · intro hc
    have hfalse : isArrayCode sta = false := by
      cases hb : isArrayCode sta
      · rfl
      · exact absurd (hcond.mp hb) hc
    simp [classify, hfalse]
  · rw [mem_keys_group_arrays]
    intro hnil
    simp [memberLats] at hnil
    exact hnil sta info h rfl

/-- Witness for C1 at the matching code `"IS31"` in a one-station input. -/
theorem claim1_grouping_rule_witness :
    ((3 ≤ ("IS31" : String).data.length ∧ ("IS31" : String).data.take 2 = ['I', 'S'] ∧
        thirdIsDigit "IS31" = true) →
      classify "IS31" = String.mk (("IS31" : String).data.take 3)) ∧
    (¬(3 ≤ ("IS31" : String).data.length ∧ ("IS31" : String).data.take 2 = ['I', 'S'] ∧
        thirdIsDigit "IS31" = true) →
      classify "IS31" = "IS31") ∧
    classify "IS31" ∈
      (group_arrays [(("IS31" : String), (⟨37, -116, "SN"⟩ : Info))]).map Prod.fst :=
  claim1_grouping_rule [(("IS31" : String), (⟨37, -116, "SN"⟩ : Info))] "IS31"
    ⟨37, -116, "SN"⟩ (by decide)

/-- C2: every centroid produced by `group_arrays` is the arithmetic mean of
its members' coordinates per axis, lies between the members' minimum and
maximum on each axis, and equals the member's own coordinates for a
singleton group. -/
theorem claim2_centroid_mean (l : List (String × Info)) (k : String) (c : Centroid)
    (h : alookup k (group_arrays l) = some c) :
    c.lat = mean (memberLats l k) ∧ c.lon = mean (memberLons l k) ∧
    (∀ m, listMin (memberLats l k) = some m → m ≤ c.lat) ∧
    (∀ M, listMax (memberLats l k) = some M → c.lat ≤ M) ∧
    (∀ m, listMin (memberLons l k) = some m → m ≤ c.lon) ∧
    (∀ M, listMax (memberLons l k) = some M → c.lon ≤ M) ∧
    (∀ la lo, memberLats l k = [la] → memberLons l k = [lo] →
      c.lat = la ∧ c.lon = lo) := by
  rw [alookup_group_arrays] at h
  by_cases hm : memberLats l k = []
  · simp [hm] at h
  · rw [if_neg hm] at h
    have hc : c = ⟨mean (memberLats l k), mean (memberLons l k)⟩ :=
      (Option.some.injEq _ _ ▸ h).symm
    subst hc
    refine ⟨rfl, rfl, ?_, ?_, ?_, ?_, ?_⟩
    · exact fun m hmin => listMin_le_mean hmin
    · exact fun M hmax => mean_le_listMax hmax
    · exact fun m hmin => listMin_le_mean hmin
    · exact fun M hmax => mean_le_listMax hmax
    · intro la lo h1 h2
      constructor
      · show mean (memberLats l k) = la
        rw [h1, mean_singleton]
      · show mean (memberLons l k) = lo
        rw [h2, mean_singleton]

/-- Witness for C2 on the two-member array `IS3` of the sample input:
its centroid is the mean `(2, 3)` of `(1, 2)` and `(3, 4)`. -/
theorem claim2_centroid_mean_witness :
    alookup "IS3" (group_arrays sampleStations) = some ⟨2, 3⟩ ∧
    ((⟨2, 3⟩ : Centroid).lat = mean (memberLats sampleStations "IS3") ∧
     (⟨2, 3⟩ : Centroid).lon = mean (memberLons sampleStations "IS3") ∧
     (∀ m, listMin (memberLats sampleStations "IS3") = some m →
        m ≤ (⟨2, 3⟩ : Centroid).lat) ∧
     (∀ M, listMax (memberLats sampleStations "IS3") = some M →
        (⟨2, 3⟩ : Centroid).lat ≤ M) ∧
     (∀ m, listMin (memberLons sampleStations "IS3") = some m →
        m ≤ (⟨2, 3⟩ : Centroid).lon) ∧
     (∀ M, listMax (memberLons sampleStations "IS3") = some M →
        (⟨2, 3⟩ : Centroid).lon ≤ M) ∧
     (∀ la lo, memberLats sampleStations "IS3" = [la] →
        memberLons sampleStations "IS3" = [lo] →
        (⟨2, 3⟩ : Centroid).lat = la ∧ (⟨2, 3⟩ : Centroid).lon = lo)) := by
  have h : alookup "IS3" (group_arrays sampleStations) = some ⟨2, 3⟩ := by
    rw [alookup_group_arrays,
      show memberLats sampleStations "IS3" = [1, 3] from by decide,
      show memberLons sampleStations "IS3" = [2, 4] from by decide]
    simp [mean]
    norm_num
  exact ⟨h, claim2_centroid_mean sampleStations "IS3" ⟨2, 3⟩ h⟩

/-- C3: for nonempty inputs the computed region exists and contains every
input point, strictly on every side (the pad of each axis is at least the
absolute floor `0.02`, so padding is always applied and the containment is
strict). -/
theorem claim3_region_contains_points (lats lons : List ℚ) (pad_min pad_frac : ℚ)
    (h1 : lats ≠ []) (h2 : lons ≠ []) :
    ∃ r : ℚ × ℚ × ℚ × ℚ,
      compute_region_from_points lats lons pad_min pad_frac = some r ∧
      (∀ lo ∈ lons, r.1 < lo ∧ lo < r.2.1) ∧
      (∀ la ∈ lats, r.2.2.1 < la ∧ la < r.2.2.2) :=
  compute_region_contains lats lons pad_min pad_frac h1 h2

/-- Witness for C3 at a single station point with the default padding
parameters. -/
theorem claim3_region_contains_points_witness :
    ([3717/100] : List ℚ) ≠ [] ∧ ([-116075/1000] : List ℚ) ≠ [] ∧
    ∃ r : ℚ × ℚ × ℚ × ℚ,
      compute_region_from_points [3717/100] [-116075/1000] (1/100) (1/100) = some r ∧
      (∀ lo ∈ ([-116075/1000] : List ℚ), r.1 < lo ∧ lo < r.2.1) ∧
      (∀ la ∈ ([3717/100] : List ℚ), r.2.2.1 < la ∧ la < r.2.2.2) :=
  ⟨by decide, by decide,
   claim3_region_contains_points [3717/100] [-116075/1000] (1/100) (1/100)
     (by decide) (by decide)⟩

/-- C4: the region is built from spans floored at `pad_min` and pads equal
to `max(span * pad_frac, 0.02)`, and each pad is at least the absolute
floor `0.02 = 1/50` — also for a zero-span (single or repeated point)
input. -/
theorem claim4_padding_floor (lats lons : List ℚ) (pad_min pad_frac a b c d : ℚ)
    (h1 : listMin lats = some a) (h2 : listMax lats = some b)
    (h3 : listMin lons = some c) (h4 : listMax lons = some d) :
    compute_region_from_points lats lons pad_min pad_frac =
      some (c - max (max (d - c) pad_min * pad_frac) (1/50),
            d + max (max (d - c) pad_min * pad_frac) (1/50),
            a - max (max (b - a) pad_min * pad_frac) (1/50),
            b + max (max (b - a) pad_min * pad_frac) (1/50)) ∧
    (1/50 : ℚ) ≤ max (max (b - a) pad_min * pad_frac) (1/50) ∧
    (1/50 : ℚ) ≤ max (max (d - c) pad_min * pad_frac) (1/50) :=
  ⟨compute_region_eq lats lons pad_min pad_frac a b c d h1 h2 h3 h4,
   le_max_right _ _, le_max_right _ _⟩

/-- Witness for C4 at a repeated single point (zero span on both axes). -/
theorem claim4_padding_floor_witness :
    listMin [(5 : ℚ), 5] = some 5 ∧ listMax [(5 : ℚ), 5] = some 5 ∧
    listMin [(7 : ℚ), 7] = some 7 ∧ listMax [(7 : ℚ), 7] = some 7 ∧
    (compute_region_from_points [5, 5] [7, 7] (1/100) (1/100) =
      some (7 - max (max ((7 : ℚ) - 7) (1/100) * (1/100)) (1/50),
            7 + max (max ((7 : ℚ) - 7) (1/100) * (1/100)) (1/50),
            5 - max (max ((5 : ℚ) - 5) (1/100) * (1/100)) (1/50),
            5 + max (max ((5 : ℚ) - 5) (1/100) * (1/100)) (1/50)) ∧
     (1/50 : ℚ) ≤ max (max ((5 : ℚ) - 5) (1/100) * (1/100)) (1/50) ∧
     (1/50 : ℚ) ≤ max (max ((7 : ℚ) - 7) (1/100) * (1/100)) (1/50)) :=
  ⟨by decide, by decide, by decide, by decide,
   claim4_padding_floor [5, 5] [7, 7] (1/100) (1/100) 5 5 7 7
     (by decide) (by decide) (by decide) (by decide)⟩

/-- C5: the topography fallback returns the grid of the first resolution in
preference order whose load succeeds, never attempting later resolutions
(the result does not depend on the tail after the first success); and when
every resolution fails it returns the aggregate error carrying the last
underlying failure. -/
theorem claim5_topo_first_success :
    (∀ (ε γ : Type) (load : String → Except ε γ) (l₁ l₂ : List String) (r : String)
        (g : γ),
      (∀ x ∈ l₁, ∃ e, load x = Except.error e) → load r = Except.ok g →
      load_topography load (l₁ ++ r :: l₂) = Except.ok g) ∧
    (∀ (ε γ : Type) (load : String → Except ε γ) (l : List String) (x : String),
      (∀ y ∈ l ++ [x], ∃ e, load y = Except.error e) →
      ∃ e, load x = Except.error e ∧
        load_topography load (l ++ [x]) = Except.error (some e)) :=
  ⟨fun _ _ load l₁ l₂ r g hfail hok => load_topography_first_ok load l₁ l₂ r g hfail hok,
   fun _ _ load l x hfail => load_topography_all_fail load l x hfail⟩

/-- Witness for C5 on the shape of `TOPO_PREF`: with resolutions
`[A, B, C]` where `A` fails and `B` succeeds, the result is `B`'s grid;
and a loader failing everywhere yields the aggregate error with the last
failure. -/
theorem claim5_topo_first_success_witness :
    load_topography
      (fun r : String => if r = "03s" then (Except.ok 7 : Except Nat Nat)
        else Except.error 0)
      (["01s"] ++ "03s" :: ["15s"]) = Except.ok 7 ∧
    (∃ e, (fun _ : String => (Except.error 9 : Except Nat Nat)) "15s" = Except.error e ∧
      load_topography (fun _ : String => (Except.error 9 : Except Nat Nat))
        (["01s", "03s"] ++ ["15s"]) = Except.error (some e)) :=
  ⟨claim5_topo_first_success.1 Nat Nat _ ["01s"] ["15s"] "03s" 7
      (by
        intro x hx
        simp at hx
        subst hx
        exact ⟨0, rfl⟩)
      rfl,
   claim5_topo_first_success.2 Nat Nat _ ["01s", "03s"] "15s"
      (fun y _ => ⟨9, rfl⟩)⟩

/-- C6, counterexample: topography unavailability is NOT the only failure
class the run recovers from.  In `sampleEnvGrdimageFail` the topography
loads at the first resolution (`topoLoad` succeeds) and only the raster
drawing call fails, yet the run still recovers: it warns once, falls back
to the plain coastline background and completes — a recovered failure that
is not a topography-unavailability failure. -/
theorem claim6_counterexample :
    sampleEnvGrdimageFail.topoLoad "01s" = Except.ok 7 ∧
    sampleEnvGrdimageFail.grdimageOk = false ∧
    main sampleEnvGrdimageFail MANUAL_REGION =
      Except.ok ⟨Background.coast, 1, ["IS3", "IS4"], true, false⟩ := by
  refine ⟨rfl, rfl, ?_⟩
  have h := @main_coast_ok sampleEnvGrdimageFail MANUAL_REGION sampleStations
    rfl (by decide)
    (topoStep_grdimage_fail sampleEnvGrdimageFail 7 rfl rfl rfl rfl)
    rfl rfl rfl rfl rfl (fun hsave => absurd hsave (by decide))
  rw [h]
  have h34 : ("IS3" : String) ≤ "IS4" := String.le_iff_toList_le.mpr (by decide)
  have hkeys : (group_arrays sampleStations).map Prod.fst = ["IS3", "IS4"] := by decide
  have hro : renderOrder (group_arrays sampleStations) = ["IS3", "IS4"] := by
    rw [renderOrder, hkeys]
    simp [List.insertionSort, List.orderedInsert, h34]
  rw [hro]
  rfl

/-- C6 (amended): when topography loading fails for every resolution the
run does not abort — it emits one warning, substitutes the plain coastline
background and runs to completion, showing the output image.  However the
recovered failure classes are the failures caught inside the topography
block (topography loading AND the raster `grdimage` drawing call, which is
recovered identically) together with the silently swallowed legend-file
removal failure (the first two parts hold for every value of `removeOk`);
every remaining external call (symbol plotting, scale bar, legend writing
and drawing, display, export) must succeed for the run to complete. -/
theorem claim6_graceful_degradation :
    (∀ (env : Env) (mr : Option (ℚ × ℚ × ℚ × ℚ)) (l : List (String × Info)),
      env.queryRaw = Except.ok l → l ≠ [] →
      (∀ r ∈ TOPO_PREF, ∃ e, env.topoLoad r = Except.error e) →
      env.basemapFrameOk = true → env.coastOk = true → env.plotOk = true →
      env.scaleOk = true → env.legendWriteOk = true → env.legendDrawOk = true →
      env.showOk = true → (env.save = true → env.savefigOk = true) →
      main env mr =
        Except.ok ⟨Background.coast, 1, renderOrder (group_arrays l), true, env.save⟩) ∧
    (∀ (env : Env) (mr : Option (ℚ × ℚ × ℚ × ℚ)) (l : List (String × Info)) (g : Nat),
      env.queryRaw = Except.ok l → l ≠ [] →
      load_topography env.topoLoad TOPO_PREF = Except.ok g → env.grdimageOk = false →
      env.basemapFrameOk = true → env.coastOk = true → env.plotOk = true →
      env.scaleOk = true → env.legendWriteOk = true → env.legendDrawOk = true →
      env.showOk = true → (env.save = true → env.savefigOk = true) →
      main env mr =
        Except.ok ⟨Background.coast, 1, renderOrder (group_arrays l), true, env.save⟩) ∧
    (∀ (env : Env) (mr : Option (ℚ × ℚ × ℚ × ℚ)) (out : RunOutput),
      main env mr = Except.ok out →
      env.plotOk = true ∧ env.scaleOk = true ∧ env.legendWriteOk = true ∧
      env.legendDrawOk = true ∧ env.showOk = true ∧
      (env.save = true → env.savefigOk = true)) := by
  refine ⟨?_, ?_, ?_⟩
  · intro env mr l hq hl hfail hb hc hp hs hlw hld hsh hsv
    exact main_coast_ok hq hl (topoStep_all_fail env hfail hb hc) hp hs hlw hld hsh hsv
  · intro env mr l g hq hl hload hg hb hc hp hs hlw hld hsh hsv
    exact main_coast_ok hq hl (topoStep_grdimage_fail env g hload hg hb hc)
      hp hs hlw hld hsh hsv
  · intro env mr out h
    obtain ⟨h1, h2, h3, h4, h5, h6, -, -⟩ := main_ok_flags h
    exact ⟨h1, h2, h3, h4, h5, h6⟩

/-- Witness for C6 in the all-resolutions-fail environment: the run
completes with one warning and the coastline background. -/
theorem claim6_graceful_degradation_witness :
    main sampleEnvAllFail MANUAL_REGION =
      Except.ok ⟨Background.coast, 1, renderOrder (group_arrays sampleStations), true,
        sampleEnvAllFail.save⟩ :=
  claim6_graceful_degradation.1 sampleEnvAllFail MANUAL_REGION sampleStations rfl
    (by decide) (fun r _ => ⟨"404", rfl⟩) rfl rfl rfl rfl rfl rfl rfl
    (fun hsave => absurd hsave (by decide))

/-- C7: a query that succeeds with zero stations aborts the run with the
distinct no-stations error, for every environment and region override —
in particular before any aggregation, region computation or rendering is
consulted; an upstream query failure aborts with the distinct wrapped
FDSN error instead, and the two error values are different. -/
theorem claim7_no_stations_abort :
    (∀ (env : Env) (mr : Option (ℚ × ℚ × ℚ × ℚ)),
      env.queryRaw = Except.ok [] → main env mr = Except.error Err.noStations) ∧
    (∀ (env : Env) (mr : Option (ℚ × ℚ × ℚ × ℚ)) (e : String),
      env.queryRaw = Except.error e → main env mr = Except.error (Err.fdsn e)) ∧
    (∀ e : String, Err.noStations ≠ Err.fdsn e) := by
  refine ⟨?_, ?_, ?_⟩
  · intro env mr hq
    exact main_no_stations hq
  · intro env mr e hq
    exact main_query_fail hq
  · intro e h
    exact Err.noConfusion h

/-- Witness for C7 in the empty-result environment. -/
theorem claim7_no_stations_abort_witness :
    main sampleEnvEmpty none = Except.error Err.noStations ∧
    Err.noStations ≠ Err.fdsn "boom" :=
  ⟨claim7_no_stations_abort.1 sampleEnvEmpty none rfl,
   claim7_no_stations_abort.2.2 "boom"⟩

/-- C8: on zero points (an empty latitude or longitude list) the region
computation fails — it never returns a region at all. -/
theorem claim8_empty_input_fails (lats lons : List ℚ) (pad_min pad_frac : ℚ)
    (h : lats = [] ∨ lons = []) :
    compute_region_from_points lats lons pad_min pad_frac = none :=
  compute_region_none lats lons pad_min pad_frac h

/-- Witness for C8 at fully empty input. -/
theorem claim8_empty_input_fails_witness :
    (([] : List ℚ) = [] ∨ ([] : List ℚ) = []) ∧
    compute_region_from_points [] [] (1/100) (1/100) = none :=
  ⟨Or.inl rfl, claim8_empty_input_fails [] [] (1/100) (1/100) (Or.inl rfl)⟩

/-- C9: grouping and centroids are independent of input order — permuted
inputs yield the same key set and the same centroid per key — and the
rendering loop iterates identifiers in lexicographically sorted order,
identically for permuted inputs. -/
theorem claim9_order_independence (l₁ l₂ : List (String × Info)) (h : l₁.Perm l₂) :
    (∀ k, alookup k (group_arrays l₁) = alookup k (group_arrays l₂)) ∧
    (∀ k, k ∈ (group_arrays l₁).map Prod.fst ↔ k ∈ (group_arrays l₂).map Prod.fst) ∧
    renderOrder (group_arrays l₁) = renderOrder (group_arrays l₂) ∧
    List.Sorted (fun a b : String => a ≤ b) (renderOrder (group_arrays l₁)) := by
  refine ⟨fun k => alookup_group_arrays_perm h k, ?_,
    renderOrder_eq_of_perm (keys_group_arrays_perm h), sorted_renderOrder _⟩
  intro k
  exact (keys_group_arrays_perm h).mem_iff

/-- Witness for C9 on the sample input and a reordering of it. -/
theorem claim9_order_independence_witness :
    (∀ k, alookup k (group_arrays sampleStations) =
      alookup k (group_arrays
        [(("IS41" : String), (⟨5, 6, "SN"⟩ : Info)), ("IS32", ⟨3, 4, "SN"⟩),
         ("IS31", ⟨1, 2, "SN"⟩)])) ∧
    (∀ k, k ∈ (group_arrays sampleStations).map Prod.fst ↔
      k ∈ (group_arrays
        [(("IS41" : String), (⟨5, 6, "SN"⟩ : Info)), ("IS32", ⟨3, 4, "SN"⟩),
         ("IS31", ⟨1, 2, "SN"⟩)]).map Prod.fst) ∧
    renderOrder (group_arrays sampleStations) =
      renderOrder (group_arrays
        [(("IS41" : String), (⟨5, 6, "SN"⟩ : Info)), ("IS32", ⟨3, 4, "SN"⟩),
         ("IS31", ⟨1, 2, "SN"⟩)]) ∧
    List.Sorted (fun a b : String => a ≤ b) (renderOrder (group_arrays sampleStations)) :=
  claim9_order_independence sampleStations
    [(("IS41" : String), (⟨5, 6, "SN"⟩ : Info)), ("IS32", ⟨3, 4, "SN"⟩),
     ("IS31", ⟨1, 2, "SN"⟩)] (by decide)

/-- C10: the computed region depends only on the four per-axis extremes of
the input, and consing an interior point (one between the existing minimum
and maximum of its axis) onto either list leaves the region unchanged. -/
theorem claim10_extremes_determine :
    (∀ (lats₁ lats₂ lons₁ lons₂ : List ℚ) (pad_min pad_frac : ℚ),
      listMin lats₁ = listMin lats₂ → listMax lats₁ = listMax lats₂ →
      listMin lons₁ = listMin lons₂ → listMax lons₁ = listMax lons₂ →
      compute_region_from_points lats₁ lons₁ pad_min pad_frac =
        compute_region_from_points lats₂ lons₂ pad_min pad_frac) ∧
    (∀ (lats lons : List ℚ) (pad_min pad_frac x m M : ℚ),
      listMin lats = some m → listMax lats = some M → m ≤ x → x ≤ M →
      compute_region_from_points (x :: lats) lons pad_min pad_frac =
        compute_region_from_points lats lons pad_min pad_frac) ∧
    (∀ (lats lons : List ℚ) (pad_min pad_frac x m M : ℚ),
      listMin lons = some m → listMax lons = some M → m ≤ x → x ≤ M →
      compute_region_from_points lats (x :: lons) pad_min pad_frac =
        compute_region_from_points lats lons pad_min pad_frac) := by
  have hbase : ∀ (lats₁ lats₂ lons₁ lons₂ : List ℚ) (pm pf : ℚ),
      listMin lats₁ = listMin lats₂ → listMax lats₁ = listMax lats₂ →
      listMin lons₁ = listMin lons₂ → listMax lons₁ = listMax lons₂ →
      compute_region_from_points lats₁ lons₁ pm pf =
        compute_region_from_points lats₂ lons₂ pm pf := by
    intro lats₁ lats₂ lons₁ lons₂ pm pf h1 h2 h3 h4
    unfold compute_region_from_points
    rw [h1, h2, h3, h4]
  refine ⟨hbase, ?_, ?_⟩
  · intro lats lons pm pf x m M hm hM hmx hxM
    apply hbase
    · rw [listMin_cons_some x hm, min_eq_right hmx, hm]
    · rw [listMax_cons_some x hM, max_eq_right hxM, hM]
    · rfl
    · rfl
  · intro lats lons pm pf x m M hm hM hmx hxM
    apply hbase
    · rfl
    · rfl
    · rw [listMin_cons_some x hm, min_eq_right hmx, hm]
    · rw [listMax_cons_some x hM, max_eq_right hxM, hM]

/-- Witness for C10: two lists with equal extremes give equal regions, and
inserting the interior point `2` into `[1, 3]` changes nothing. -/
theorem claim10_extremes_determine_witness :
    (compute_region_from_points [(1 : ℚ), 3] [(4 : ℚ), 6] (1/100) (1/100) =
      compute_region_from_points [(3 : ℚ), 1] [(6 : ℚ), 4] (1/100) (1/100)) ∧
    (compute_region_from_points ((2 : ℚ) :: [(1 : ℚ), 3]) [(4 : ℚ), 6] (1/100) (1/100) =
      compute_region_from_points [(1 : ℚ), 3] [(4 : ℚ), 6] (1/100) (1/100)) ∧
    (compute_region_from_points [(1 : ℚ), 3] ((5 : ℚ) :: [(4 : ℚ), 6]) (1/100) (1/100) =
      compute_region_from_points [(1 : ℚ), 3] [(4 : ℚ), 6] (1/100) (1/100)) :=
  ⟨claim10_extremes_determine.1 [1, 3] [3, 1] [4, 6] [6, 4] (1/100) (1/100)
      (by decide) (by decide) (by decide) (by decide),
   claim10_extremes_determine.2.1 [1, 3] [4, 6] (1/100) (1/100) 2 1 3
      (by decide) (by decide) (by decide) (by decide),
   claim10_extremes_determine.2.2 [1, 3] [4, 6] (1/100) (1/100) 5 4 6
      (by decide) (by decide) (by decide) (by decide)⟩

end StationMap
